import Mathlib

/-!
Verification development for the Vhisper voice pipeline core.

Shallow embedding of the relevant Rust sources:
  * `src-tauri/src/audio/mod.rs` — PCM / WAV encoding (`encode_to_pcm`,
    `encode_to_wav`); the float-to-int16 quantization step.
  * `src-tauri/crates/vhisper-core/src/audio/recorder.rs` — `AudioRecorder`
    and the fractional-accumulator resampler of `run_recording_loop`.
  * `src-tauri/crates/vhisper-core/src/pipeline/voice.rs` — `VoicePipeline`:
    `cancel`, `stop_and_process`, `start_streaming` (session-management
    task), `cancel_streaming`.
  * `src-tauri/crates/vhisper-core/src/asr/mod.rs` — the ASR factories.
  * `src-tauri/crates/vhisper-core/src/asr/qwen_realtime.rs` — the response
    pump of `QwenRealtimeAsr::start_streaming`.

Modelling conventions: machine floats (`f32`/`f64`) are embedded as exact
rationals; external I/O (locks that may be poisoned, the hound WAV writer,
network calls) is supplied by explicit environment records; atomics read by
concurrently running code are supplied as oracles recording the value each
read observes.
-/

namespace Vhisper

/-- Rust `PipelineState` from `pipeline/voice.rs` (`Idle = 0`, `Recording = 1`,
`Processing = 2`). -/
inductive PipelineState where
  | Idle
  | Recording
  | Processing
deriving DecidableEq, Repr

/-- Rust `impl From<u8> for PipelineState`: 1 ↦ Recording, 2 ↦ Processing,
anything else ↦ Idle. -/
def PipelineState.ofU8 (v : Nat) : PipelineState :=
  match v with
  | 1 => .Recording
  | 2 => .Processing
  | _ => .Idle

/-- Rust `AsrError` from `asr/traits.rs`. -/
inductive AsrError where
  | Api (msg : String)
  | Network (msg : String)
  | Encoding (msg : String)
  | Config (msg : String)
  | Session (msg : String)
  | Cancelled
deriving DecidableEq, Repr

/-- Rust `LlmError` from `llm/traits.rs` (only the constructors the pipeline
distinguishes; payloads are the message strings). -/
inductive LlmError where
  | Config (msg : String)
  | Other (msg : String)
deriving DecidableEq, Repr

/-- Rust `AudioError` from `audio/mod.rs`. -/
inductive AudioError where
  | NoInputDevice
  | Stream (msg : String)
  | Encoding (msg : String)
  | Device (msg : String)
deriving DecidableEq, Repr

/-- Rust `PipelineError` from `pipeline/voice.rs`. -/
inductive PipelineError where
  | Audio (e : AudioError)
  | Asr (e : AsrError)
  | Llm (e : LlmError)
  | Other (msg : String)
  | Cancelled
deriving DecidableEq, Repr

/-! ## Audio codec (`src-tauri/src/audio/mod.rs`) -/

/-- Rust `f32::clamp(-1.0, 1.0)`, over exact rationals. -/
def clampSample (x : ℚ) : ℚ := max (-1) (min 1 x)

/-- Rust's `as i16` cast applied to a finite float within i16 range:
truncation toward zero. -/
def truncTowardZero (x : ℚ) : ℤ := if 0 ≤ x then ⌊x⌋ else ⌈x⌉

/-- The float→int16 quantization both encoders perform:
`(sample.clamp(-1.0, 1.0) * i16::MAX as f32) as i16` with
`i16::MAX = 32767`. -/
def quantizeSample (x : ℚ) : ℤ := truncTowardZero (clampSample x * 32767)

/-- Two's-complement little-endian byte pair of an `i16` value
(`amplitude.to_le_bytes()`). -/
def i16ToLeBytes (v : ℤ) : List ℕ :=
  let u := (v % 65536).toNat
  [u % 256, u / 256]

/-- Rust `encode_to_pcm`: each f32 sample is quantized to i16 and appended as two
little-endian bytes. -/
def encode_to_pcm (samples : List ℚ) : List ℕ :=
  samples.foldr (fun s acc => i16ToLeBytes (quantizeSample s) ++ acc) []

/-- A produced WAV container, modelled at the level the hound library
guarantees: the format fields written into the header and the sequence of
i16 data-chunk samples a standard reader decodes back. -/
structure WavFile where
  channels : ℕ
  sampleRate : ℕ
  bitsPerSample : ℕ
  data : List ℤ
deriving DecidableEq, Repr

/-- Rust `encode_to_wav`: builds a 16-bit integer `WavSpec`, writes each sample
through the same `(clamp * 32767) as i16` quantization, and finalizes.
`writerOk` abstracts the hound writer's I/O success (`WavWriter::new`,
`write_sample`, `finalize` all return `Result`); on failure the Rust code
maps the error into `AudioError::Encoding`. -/
def encode_to_wav (writerOk : Bool) (samples : List ℚ) (sample_rate : ℕ)
    (channels : ℕ) : Except AudioError WavFile :=
  if writerOk then
    Except.ok
      { channels := channels
        sampleRate := sample_rate
        bitsPerSample := 16
        data := samples.map quantizeSample }
  else
    Except.error (AudioError.Encoding "wav writer failure")

/-- A standard WAV reader returns the data-chunk samples. -/
def decodeWav (w : WavFile) : List ℤ := w.data

/-- Modelled from the spec: the quantization the spec sentence prescribes,
`round(clamp(x,-1,1) * 32767)`, for comparison against `quantizeSample`. -/
def specRoundQuantize (x : ℚ) : ℤ := round (clampSample x * 32767)

/-! ## Audio recorder (`crates/vhisper-core/src/audio/recorder.rs`) -/

/-- Rust `RecordingState` from `recorder.rs`. -/
inductive RecordingState where
  | Idle
  | Recording
deriving DecidableEq, Repr

/-- Fields of `AudioRecorder`. `hasCommandTx` models `command_tx.is_some()`;
`workerGen` counts worker threads spawned so far, so an unchanged
`workerGen` means no new worker thread. -/
structure AudioRecorder where
  buffer : List ℚ
  sample_rate : ℕ
  channels : ℕ
  recState : RecordingState
  hasCommandTx : Bool
  workerGen : ℕ
deriving DecidableEq, Repr

/-- Rust `AudioRecorder::new()`: empty buffer, 16 kHz, mono, idle, no channel,
no worker. -/
def AudioRecorder.new : AudioRecorder :=
  { buffer := []
    sample_rate := 16000
    channels := 1
    recState := .Idle
    hasCommandTx := false
    workerGen := 0 }

/-- Rust `AudioRecorder::start`: if already `Recording`, return `Ok(())` at once
(before the buffer clear, the channel creation and the thread spawn);
otherwise clear the buffer, install a fresh command channel, spawn the
worker thread and mark `Recording`. -/
def AudioRecorder.start (r : AudioRecorder) :
    AudioRecorder × Except AudioError Unit :=
  if r.recState = .Recording then
    (r, Except.ok ())
  else
    ({ r with
        buffer := []
        hasCommandTx := true
        workerGen := r.workerGen + 1
        recState := .Recording },
      Except.ok ())

/-- Rust `AudioRecorder::stop`: when not recording, return an empty vector and
leave everything unchanged; otherwise take the command channel and worker
handle, mark `Idle`, and return a clone of the buffer. -/
def AudioRecorder.stop (r : AudioRecorder) :
    AudioRecorder × Except AudioError (List ℚ) :=
  if r.recState ≠ .Recording then
    (r, Except.ok [])
  else
    ({ r with recState := .Idle, hasCommandTx := false },
      Except.ok r.buffer)

/-! ## Fractional-accumulator resampler (`run_recording_loop` callback)

The input-stream callback advances a running accumulator by
`1.0 / resample_ratio` per mono-averaged frame and, while the accumulator
is `>= 1.0`, pushes one output sample and decrements by `1.0`. The `f64`
accumulator is embedded as an exact rational. -/

/-- The `while *acc >= 1.0 { buffer.push(mono); *acc -= 1.0 }` loop: given
the accumulator value after the `+= step`, returns the post-loop
accumulator and the number of samples pushed. -/
def drainAcc (a : ℚ) : ℚ × ℕ :=
  if h : 1 ≤ a then
    let p := drainAcc (a - 1)
    (p.1, p.2 + 1)
  else
    (a, 0)
termination_by (⌈a⌉).toNat
decreasing_by
  have hc : (⌈a - 1⌉ : ℤ) = ⌈a⌉ - 1 := by
    exact_mod_cast Int.ceil_sub_int a 1
  have hge : (0 : ℤ) < ⌈a⌉ := Int.ceil_pos.mpr (lt_of_lt_of_le one_pos h)
  simp only [hc]
  omega

/-- The callback body `for frame in data.chunks(channels)`: each frame is
averaged to one mono value (`frame.iter().sum::<f32>() / channels as f32`),
the accumulator advances by `step = 1.0 / resample_ratio`, and the
while-loop drains it. Input is the chunked frame list; returns the pushed
output samples and the final accumulator. -/
def processFrames (channels : ℕ) (step : ℚ) :
    List (List ℚ) → ℚ → List ℚ × ℚ
  | [], acc => ([], acc)
  | frame :: rest, acc =>
      let mono : ℚ := frame.sum / (channels : ℚ)
      let p := drainAcc (acc + step)
      let q := processFrames channels step rest p.1
      (List.replicate p.2 mono ++ q.1, q.2)

/-! ## ASR / LLM factories (`asr/mod.rs`, `llm/mod.rs`)

The constructed service objects are opaque network clients (out of scope);
the factories are modelled down to which configurations they accept, which
is what the pipeline's error paths depend on. `AsrConfig`'s `Option`
sub-configs are embedded as presence booleans. -/

/-- Rust `AsrConfig` presence structure: `provider` plus `is_some` of each
provider-specific sub-config. -/
structure AsrConfig where
  provider : String
  qwen : Bool
  dashscope : Bool
  openai : Bool
  funasr : Bool
deriving DecidableEq, Repr

/-- Rust `create_asr_service`: matches the provider string and fails with a
`Config` error if the sub-config is missing or the provider is unknown. -/
def create_asr_service (config : AsrConfig) : Except AsrError Unit :=
  match config.provider with
  | "Qwen" =>
      if config.qwen then Except.ok ()
      else Except.error (AsrError.Config "Qwen ASR config missing")
  | "DashScope" =>
      if config.dashscope then Except.ok ()
      else Except.error (AsrError.Config "DashScope config missing")
  | "OpenAIWhisper" =>
      if config.openai then Except.ok ()
      else Except.error (AsrError.Config "OpenAI config missing")
  | "FunAsr" =>
      if config.funasr then Except.ok ()
      else Except.error (AsrError.Config "FunASR config missing")
  | other => Except.error (AsrError.Config ("unknown ASR provider: " ++ other))

/-- Rust `create_streaming_asr_service`: only `"Qwen"` supports streaming. -/
def create_streaming_asr_service (config : AsrConfig) : Except AsrError Unit :=
  match config.provider with
  | "Qwen" =>
      if config.qwen then Except.ok ()
      else Except.error (AsrError.Config "Qwen ASR config missing")
  | other =>
      Except.error (AsrError.Config ("provider does not support streaming: " ++ other))

/-- Rust `LlmConfig` presence structure. -/
structure LlmConfig where
  enabled : Bool
  provider : String
  dashscope : Bool
  openai : Bool
  ollama : Bool
deriving DecidableEq, Repr

/-- Rust `create_llm_service`: `Ok(None)` when disabled, `Ok(Some(..))` for a
known provider with its config present, `Err(Config)` otherwise. -/
def create_llm_service (config : LlmConfig) : Except LlmError (Option Unit) :=
  if !config.enabled then Except.ok none
  else
    match config.provider with
    | "DashScope" =>
        if config.dashscope then Except.ok (some ())
        else Except.error (LlmError.Config "DashScope LLM config missing")
    | "OpenAI" =>
        if config.openai then Except.ok (some ())
        else Except.error (LlmError.Config "OpenAI LLM config missing")
    | "Ollama" =>
        if config.ollama then Except.ok (some ())
        else Except.error (LlmError.Config "Ollama config missing")
    | other => Except.error (LlmError.Config ("unknown LLM provider: " ++ other))

/-! ## `VoicePipeline::stop_and_process` (`pipeline/voice.rs`, lines 154-298)

The async method runs concurrently with `cancel()`, which may store the
cancellation flag at any instant. The method reads the flag at four
checkpoints, in order:

  read 0 — on entry (line 156);
  read 1 — after `recorder.stop()` (line 182);
  read 2 — after encoding (line 252);
  read 3 — after `recognize` (line 271).

`cancelArrival = some k` is the oracle "the flag became set after read
`k - 1` and before read `k`" (`some 0`: already set on entry; `some 4`:
set after read 3 but before the method returned, i.e. during refinement);
`none` or `some k` with `k ≥ 5`: not set during this call. Read `i`
therefore observes the flag set exactly when `k ≤ i`. -/

/-- Value the cancellation flag shows at checkpoint read `i`. -/
def cancelObserved (arrival : Option ℕ) (i : ℕ) : Bool :=
  match arrival with
  | some k => decide (k ≤ i)
  | none => false

/-- Environment of one `stop_and_process` call: the cancellation oracle,
the outcome of each lock acquisition (`false` = poisoned), the samples
`recorder.stop()` returns, the hound writer's success, the ASR / LLM
configurations and the network-call results. -/
structure ProcEnv where
  cancelArrival : Option ℕ
  stopLockOk : Bool
  samples : List ℚ
  srLockOk : Bool
  chLockOk : Bool
  wavWriterOk : Bool
  asr : AsrConfig
  recognize : Except AsrError String
  llm : LlmConfig
  refine : Except LlmError String
  sampleRate : ℕ
  channels : ℕ
deriving Repr

deriving instance DecidableEq for Except

/-- Result of a `stop_and_process` call: the returned value, the pipeline
state at the moment of return, and the cancellation flag at the moment of
return. -/
structure ProcOut where
  result : Except PipelineError String
  state : PipelineState
  cancelled : Bool
deriving DecidableEq, Repr

/-- Rust `max_amplitude`:
`samples.iter().map(|s| s.abs()).fold(0.0f32, f32::max)`. -/
def maxAmplitude (samples : List ℚ) : ℚ :=
  samples.foldl (fun m s => max m |s|) 0

/-- The absolute-silence policy constant `0.001` of `stop_and_process`. -/
def silenceThreshold : ℚ := 1/1000

/-- The quiet-speech policy constant `0.05` of `stop_and_process`. -/
def quietThreshold : ℚ := 1/20

/-- Rust `VoicePipeline::stop_and_process`, entered in state `st0`. Each branch
mirrors the source: checkpoint returns store `Idle` and clear the flag;
the first recorder lock failure stores `Idle` inside its `map_err` closure;
the `sample_rate` / `channels` lock failures, a WAV-encoding failure and a
`create_asr_service` failure propagate through `?` with no state store
(state stays `Processing`); a `recognize` failure stores `Idle` explicitly;
an LLM failure is swallowed and the unrefined text kept. -/
def stop_and_process (env : ProcEnv) (st0 : PipelineState) : ProcOut :=
  if cancelObserved env.cancelArrival 0 then
    ⟨Except.error PipelineError.Cancelled, .Idle, false⟩
  else if st0 ≠ .Recording then
    ⟨Except.ok "", st0, false⟩
  else
    -- state := Processing (line 170)
    if ¬ env.stopLockOk then
      ⟨Except.error (PipelineError.Other "Failed to acquire recorder lock"),
        .Idle, false⟩
    else
      let samples := env.samples
      if cancelObserved env.cancelArrival 1 then
        ⟨Except.error PipelineError.Cancelled, .Idle, false⟩
      else if samples.isEmpty then
        ⟨Except.ok "", .Idle, false⟩
      else if ¬ env.srLockOk then
        ⟨Except.error (PipelineError.Other "Failed to acquire recorder lock"),
          .Processing, false⟩
      else if maxAmplitude samples < silenceThreshold then
        ⟨Except.error (PipelineError.Other
            "录音无声音，请检查麦克风权限是否已授予当前应用"), .Idle, false⟩
      else if maxAmplitude samples < quietThreshold then
        ⟨Except.error (PipelineError.Other
            "录音音量太低，请靠近麦克风或大声说话"), .Idle, false⟩
      else if env.asr.provider = "OpenAIWhisper" ∧ ¬ env.chLockOk then
        ⟨Except.error (PipelineError.Other "Failed to acquire recorder lock"),
          .Processing, false⟩
      else if env.asr.provider = "OpenAIWhisper" ∧ ¬ env.wavWriterOk then
        ⟨Except.error (PipelineError.Audio (AudioError.Encoding "wav writer failure")),
          .Processing, false⟩
      else
        -- audio_data := encode_to_wav samples / encode_to_pcm samples;
        -- the bytes do not influence control flow past this point
        if cancelObserved env.cancelArrival 2 then
          ⟨Except.error PipelineError.Cancelled, .Idle, false⟩
        else
          match create_asr_service env.asr with
          | Except.error e => ⟨Except.error (PipelineError.Asr e), .Processing, false⟩
          | Except.ok () =>
            match env.recognize with
            | Except.error e => ⟨Except.error (PipelineError.Asr e), .Idle, false⟩
            | Except.ok text =>
              if cancelObserved env.cancelArrival 3 then
                ⟨Except.error PipelineError.Cancelled, .Idle, false⟩
              else
                let final_text :=
                  if env.llm.enabled ∧ text ≠ "" then
                    match create_llm_service env.llm with
                    | Except.ok (some ()) =>
                        match env.refine with
                        | Except.ok refined => refined
                        | Except.error _ => text
                    | _ => text
                  else text
                ⟨Except.ok final_text, .Idle, cancelObserved env.cancelArrival 4⟩

/-! ## `VoicePipeline::cancel` and `cancel_streaming` -/

/-- The `VoicePipeline` scalar fields the synchronous verbs touch:
`state`, `cancelled`, `streaming_mode`, `should_stop`, and presence of the
shared streaming bookkeeping (`streaming_control_tx`,
`streaming_task_cancelled`). -/
structure VP where
  state : PipelineState
  cancelled : Bool
  streaming_mode : Bool
  should_stop : Bool
  hasControlTx : Bool
  hasTaskCancelled : Bool
deriving DecidableEq, Repr

/-- Rust `VoicePipeline::cancel` (lines 99-126). `lockOk` is the
`recorder.write()` outcome in the `Recording` arm. In `Idle`: no-op. In
`Recording`: set the flag, stop the recorder discarding data, store `Idle`,
clear the flag. In `Processing`: only set the flag. -/
def cancel (lockOk : Bool) (vp : VP) : Except PipelineError Unit × VP :=
  match vp.state with
  | .Idle => (Except.ok (), vp)
  | .Recording =>
      let vp1 := { vp with cancelled := true }
      if lockOk then
        (Except.ok (), { vp1 with state := .Idle, cancelled := false })
      else
        (Except.error (PipelineError.Other "Failed to acquire recorder lock"), vp1)
  | .Processing =>
      (Except.ok (), { vp with cancelled := true })

/-- Rust `VoicePipeline::cancel_streaming` (lines 577-608). Not in streaming
mode: no-op. Otherwise: set `should_stop`, stop the recorder (`lockOk` is
the `recorder.write()` outcome), send `Cancel` to the active session,
`cleanup_streaming` (clears `streaming_control_tx` and
`streaming_task_cancelled`), clear `streaming_mode`, set `cancelled := true`
and store `Idle`. -/
def cancel_streaming (lockOk : Bool) (vp : VP) : Except PipelineError Unit × VP :=
  if !vp.streaming_mode then
    (Except.ok (), vp)
  else
    let vp1 := { vp with should_stop := true }
    if ¬ lockOk then
      (Except.error (PipelineError.Other "Failed to acquire recorder lock"), vp1)
    else
      let vp2 := { vp1 with hasControlTx := false, hasTaskCancelled := false }
      (Except.ok (),
        { vp2 with streaming_mode := false, cancelled := true, state := .Idle })

/-! ## The streaming session-management task
(`start_streaming`, lines 445-525)

The spawned task consumes `StreamingAsrEvent`s from the current session's
receiver. Oracles: each received event carries the result of the
`forward_tx.send` (`fwdOk`), the `should_stop` value read at line 463 when
the event is a `Final` (`flag`), and the `should_stop` value re-read at
line 487 after the `break` (`flag2`). When a session's receiver closes
without a terminating event, line 487 reads `closeFlag`. Reconnection
outcomes (`create_streaming_asr_service` + `start_streaming`) are scripted
by the `next` list: `Except.error` = open failed, `Except.ok (h, s)` =
handle `h` published and session script `s` consumed next. -/

/-- Rust `StreamingAsrEvent` from `asr/traits.rs`. -/
inductive StreamingAsrEvent where
  | Partial (text stash : String)
  | Final (text : String)
  | Error (msg : String)
deriving DecidableEq, Repr

/-- One event received by the session-management task, with the oracle
values its processing reads. -/
structure EvObs where
  ev : StreamingAsrEvent
  fwdOk : Bool
  flag : Bool
  flag2 : Bool
deriving DecidableEq, Repr

/-- Script of one streaming session: the events its receiver yields, then
the `should_stop` value read when the receiver closes. -/
structure SessionScript where
  events : List EvObs
  closeFlag : Bool
deriving DecidableEq, Repr

/-- Observable outcome of the session-management task: the events forwarded
to the external channel, the sample rate of each successful reconnect
request, the control-handle identity published by each reconnect, and the
`state` / `streaming_mode` values when the task returns (the task only ever
writes `Idle` / `false`; exits that do not touch them return the inherited
values). -/
structure TaskOut where
  forwarded : List StreamingAsrEvent
  openedRates : List ℕ
  published : List ℕ
  state : PipelineState
  streamingMode : Bool
deriving DecidableEq, Repr

/-- Prepend a forwarded event to a task outcome. -/
def TaskOut.consForward (e : StreamingAsrEvent) (t : TaskOut) : TaskOut :=
  { t with forwarded := e :: t.forwarded }

/-- Record a successful reconnect (requested rate and published handle) in
front of a task outcome. -/
def TaskOut.consOpen (rate h : ℕ) (t : TaskOut) : TaskOut :=
  { t with openedRates := rate :: t.openedRates, published := h :: t.published }

/-- The session-management task loop. `rate` is the `sample_rate` captured
by the closure (every reconnect reuses it); `st`, `mode` are the inherited
`state` / `streaming_mode` values. Structure of the source loop:

  * event with `forward_tx.send` failed → `return` (state untouched);
  * `Final` with `should_stop` read true at line 463 → store `Idle`,
    clear `streaming_mode`, `return`;
  * `Final` with that read false → `break`, then line 487 re-reads
    `should_stop` (`flag2`): true → store `Idle`, clear mode, `return`;
    false → reconnect;
  * `Error` → store `Idle`, clear mode, `return` (after forwarding);
  * receiver closed → line 487 reads `closeFlag`: true → `Idle` and
    `return`; false → reconnect;
  * reconnect: on factory or `start_streaming` failure → `Idle`, clear
    mode, `return`; on success → publish the new control handle and keep
    consuming the new session's receiver. -/
def runTask (rate : ℕ) (st : PipelineState) (mode : Bool) :
    List EvObs → Bool →
    List (Except AsrError (ℕ × SessionScript)) → TaskOut
  | [], closeFlag, next =>
      if closeFlag then ⟨[], [], [], .Idle, false⟩
      else
        match next with
        | [] => ⟨[], [], [], st, mode⟩
        | Except.error _ :: _ => ⟨[], [], [], .Idle, false⟩
        | Except.ok (h, s) :: next' =>
            TaskOut.consOpen rate h (runTask rate st mode s.events s.closeFlag next')
  | e :: rest, closeFlag, next =>
      if ¬ e.fwdOk then ⟨[], [], [], st, mode⟩
      else
        match e.ev with
        | .Partial t sh =>
            TaskOut.consForward (.Partial t sh)
              (runTask rate st mode rest closeFlag next)
        | .Error m => ⟨[.Error m], [], [], .Idle, false⟩
        | .Final t =>
            if e.flag then ⟨[.Final t], [], [], .Idle, false⟩
            else if e.flag2 then ⟨[.Final t], [], [], .Idle, false⟩
            else
              match next with
              | [] => ⟨[.Final t], [], [], st, mode⟩
              | Except.error _ :: _ => ⟨[.Final t], [], [], .Idle, false⟩
              | Except.ok (h, s) :: next' =>
                  TaskOut.consForward (.Final t)
                    (TaskOut.consOpen rate h
                      (runTask rate st mode s.events s.closeFlag next'))
termination_by evs _ next => (next.length, evs.length)

/-- The task applied to a whole session script. -/
def runSessionTask (rate : ℕ) (st : PipelineState) (mode : Bool)
    (s : SessionScript)
    (next : List (Except AsrError (ℕ × SessionScript))) : TaskOut :=
  runTask rate st mode s.events s.closeFlag next

/-- A fully successful batch environment: no cancellation, healthy locks,
loud samples, the Qwen provider configured, recognition succeeding, LLM
disabled. -/
def happyEnv : ProcEnv :=
  { cancelArrival := none
    stopLockOk := true
    samples := [1/2, 1/2]
    srLockOk := true
    chLockOk := true
    wavWriterOk := true
    asr := ⟨"Qwen", true, false, false, false⟩
    recognize := Except.ok "你好"
    llm := ⟨false, "None", false, false, false⟩
    refine := Except.error (LlmError.Other "unused")
    sampleRate := 16000
    channels := 1 }

/-- Control-flow predicate: the `stop_and_process` call with this
environment executes checkpoint read `k`, given that no earlier read
observed a cancellation. Read 0 runs on entry; read 1 additionally needs
the `Recording` state and a healthy stop lock; read 2 additionally a
non-empty buffer, a healthy sample-rate lock, both amplitude gates passed
and, on the WAV path, a healthy channels lock and writer; read 3
additionally an accepted provider and a successful recognition. -/
def reachesRead (env : ProcEnv) (st0 : PipelineState) : ℕ → Prop
  | 0 => True
  | 1 => st0 = .Recording ∧ env.stopLockOk = true
  | 2 => st0 = .Recording ∧ env.stopLockOk = true ∧
      env.samples.isEmpty = false ∧ env.srLockOk = true ∧
      ¬ maxAmplitude env.samples < silenceThreshold ∧
      ¬ maxAmplitude env.samples < quietThreshold ∧
      (env.asr.provider = "OpenAIWhisper" → env.chLockOk = true ∧ env.wavWriterOk = true)
  | 3 => st0 = .Recording ∧ env.stopLockOk = true ∧
      env.samples.isEmpty = false ∧ env.srLockOk = true ∧
      ¬ maxAmplitude env.samples < silenceThreshold ∧
      ¬ maxAmplitude env.samples < quietThreshold ∧
      (env.asr.provider = "OpenAIWhisper" → env.chLockOk = true ∧ env.wavWriterOk = true) ∧
      create_asr_service env.asr = Except.ok () ∧
      (∃ t, env.recognize = Except.ok t)
  | _ + 4 => False

/-! ## Qwen realtime response pump (`asr/qwen_realtime.rs`) -/

/-- Rust `ResponseEvent`: a deserialized provider message with its
`event_type`, optional `transcript` / `text` / `stash` fields and optional
error info (embedded as its message string). -/
structure ResponseEvent where
  event_type : String
  transcript : Option String
  text : Option String
  stash : Option String
  error : Option String
deriving DecidableEq, Repr

/-- Outcome of handling one decoded inbound text message in the pump task:
the events emitted to the event channel, the updated `accumulated_text`,
and whether the loop breaks (an error was forwarded). -/
structure PumpStep where
  emitted : List StreamingAsrEvent
  accumulated_text : String
  breaks : Bool
deriving DecidableEq, Repr

/-- One iteration of the pump's inbound-message handling
(`qwen_realtime.rs` lines 263-306). A message with `error` set forwards
`Error` and breaks the loop. A `…transcription.text` message stores a
non-empty `text` into `accumulated_text` and emits
`Partial{text, stash}`. A `…transcription.completed` message emits `Final`
with `transcript.or(text).unwrap_or(accumulated_text)` and then clears the
accumulator. Any other message type (including the dead `"error"` arm,
whose guard can no longer fire once `r.error` was seen to be `none`) is
ignored. -/
def pumpHandleResponse (accumulated_text : String) (r : ResponseEvent) :
    PumpStep :=
  match r.error with
  | some m => ⟨[StreamingAsrEvent.Error m], accumulated_text, true⟩
  | none =>
    if r.event_type = "conversation.item.input_audio_transcription.text" then
      let text := r.text.getD ""
      let stash := r.stash.getD ""
      let acc := if text ≠ "" then text else accumulated_text
      ⟨[StreamingAsrEvent.Partial text stash], acc, false⟩
    else if r.event_type = "conversation.item.input_audio_transcription.completed" then
      let final_text := (r.transcript.or r.text).getD accumulated_text
      ⟨[StreamingAsrEvent.Final final_text], "", false⟩
    else
      ⟨[], accumulated_text, false⟩

/-- The pump loop over a session's decoded inbound messages, starting from
the given accumulator (empty at session start); stops when a step breaks. -/
def runPump (accumulated_text : String) :
    List ResponseEvent → List StreamingAsrEvent
  | [] => []
  | r :: rest =>
      let s := pumpHandleResponse accumulated_text r
      if s.breaks then s.emitted
      else s.emitted ++ runPump s.accumulated_text rest

/-! # Theorems -/

/-! ## C3 — float-to-int16 quantization -/

/-- C3, counterexample: the claim says the quantization equals
`round(clamp(x,-1,1) * 32767)`. At `x = 1/2` the code's `as i16` cast
truncates `16383.5` to `16383` (the product is exactly representable in
`f32`, so no floating-point rounding intervenes), while the claimed
rounding gives `16384`. -/
theorem c3_round_counterexample :
    quantizeSample (1/2) = 16383 ∧ specRoundQuantize (1/2) = 16384 ∧
      quantizeSample (1/2) ≠ specRoundQuantize (1/2) := by
  have h1 : quantizeSample (1/2) = 16383 := by
    unfold quantizeSample truncTowardZero clampSample
    norm_num
  have h2 : specRoundQuantize (1/2) = 16384 := by
    unfold specRoundQuantize clampSample
    norm_num [round_eq]
  exact ⟨h1, h2, by rw [h1, h2]; decide⟩

/-- C3, amended: the float-to-int16 quantization used by both the PCM
encoder and the WAV encoder is deterministic and equal to
`trunc(clamp(x,-1,1) * 32767)` (truncation toward zero, Rust's `as i16`
cast), its values lie within i16 range, and encoding a sample buffer to
WAV and decoding it with a standard reader yields exactly those quantized
samples; the PCM encoder serializes exactly the same quantized values. -/
theorem c3_trunc_quantization_roundtrip (samples : List ℚ) (rate ch : ℕ)
    (w : WavFile) (h : encode_to_wav true samples rate ch = Except.ok w) :
    decodeWav w = samples.map quantizeSample ∧
    encode_to_pcm samples
      = (samples.map quantizeSample).foldr (fun v acc => i16ToLeBytes v ++ acc) [] ∧
    ∀ x : ℚ, quantizeSample x = truncTowardZero (clampSample x * 32767) ∧
      -32767 ≤ quantizeSample x ∧ quantizeSample x ≤ 32767 := by
  refine ⟨?_, ?_, ?_⟩
  · simp only [encode_to_wav, if_true] at h
    cases h
    rfl
  · simp [encode_to_pcm, List.foldr_map]
  · intro x
    refine ⟨rfl, ?_, ?_⟩
    · have hlo : (-1 : ℚ) ≤ clampSample x := le_max_left _ _
      have hprod : (-32767 : ℚ) ≤ clampSample x * 32767 := by nlinarith
      unfold quantizeSample truncTowardZero
      split
      · have : ((-32767 : ℤ) : ℚ) ≤ clampSample x * 32767 := by exact_mod_cast hprod
        calc (-32767 : ℤ) = ⌊((-32767 : ℤ) : ℚ)⌋ := (Int.floor_intCast _).symm
          _ ≤ ⌊clampSample x * 32767⌋ := Int.floor_le_floor this
      · have : ((-32767 : ℤ) : ℚ) ≤ clampSample x * 32767 := by exact_mod_cast hprod
        calc (-32767 : ℤ) = ⌈((-32767 : ℤ) : ℚ)⌉ := (Int.ceil_intCast _).symm
          _ ≤ ⌈clampSample x * 32767⌉ := Int.ceil_le_ceil this
    · have hhi : clampSample x ≤ 1 := max_le (by norm_num) (min_le_left _ _)
      have hprod : clampSample x * 32767 ≤ (32767 : ℚ) := by nlinarith
      unfold quantizeSample truncTowardZero
      split
      · have : clampSample x * 32767 ≤ ((32767 : ℤ) : ℚ) := by exact_mod_cast hprod
        calc ⌊clampSample x * 32767⌋ ≤ ⌊((32767 : ℤ) : ℚ)⌋ := Int.floor_le_floor this
          _ = 32767 := Int.floor_intCast _
      · have : clampSample x * 32767 ≤ ((32767 : ℤ) : ℚ) := by exact_mod_cast hprod
        calc ⌈clampSample x * 32767⌉ ≤ ⌈((32767 : ℤ) : ℚ)⌉ := Int.ceil_le_ceil this
          _ = 32767 := Int.ceil_intCast _

/-- C3, witness: the amended theorem applied to the concrete buffer
`[1/2, -1/4]` at 16 kHz mono. -/
theorem c3_trunc_quantization_roundtrip_witness :
    decodeWav ⟨1, 16000, 16, [16383, -8191]⟩
        = [(1:ℚ)/2, -1/4].map quantizeSample ∧
    encode_to_pcm [(1:ℚ)/2, -1/4]
      = ([(1:ℚ)/2, -1/4].map quantizeSample).foldr
          (fun v acc => i16ToLeBytes v ++ acc) [] ∧
    ∀ x : ℚ, quantizeSample x = truncTowardZero (clampSample x * 32767) ∧
      -32767 ≤ quantizeSample x ∧ quantizeSample x ≤ 32767 :=
  c3_trunc_quantization_roundtrip [(1:ℚ)/2, -1/4] 16000 1
    ⟨1, 16000, 16, [16383, -8191]⟩ (by
      have hq1 : quantizeSample ((1:ℚ)/2) = 16383 := by
        unfold quantizeSample truncTowardZero clampSample
        norm_num
      have hq2 : quantizeSample ((-1:ℚ)/4) = -8191 := by
        unfold quantizeSample truncTowardZero clampSample
        norm_num
        rw [Int.ceil_neg]
        norm_num
      have hmap : List.map quantizeSample [(1:ℚ)/2, -1/4] = [16383, -8191] := by
        rw [List.map_cons, List.map_cons, List.map_nil, hq1, hq2]
      unfold encode_to_wav
      rw [hmap]
      rfl)

/-! ## C10 — recorder-level start idempotence -/

/-- C10: calling `AudioRecorder::start` while the recorder is already
`Recording` returns `Ok` immediately and leaves the recorder untouched —
the sample buffer is not cleared, no new worker thread is spawned
(`workerGen` unchanged) and the command channel is not replaced. -/
theorem c10_start_idempotent_while_recording (r : AudioRecorder)
    (h : r.recState = .Recording) :
    r.start = (r, Except.ok ()) := by
  simp [AudioRecorder.start, h]

/-! ## C6 — resampler output count -/

/-- Closed form of the while-loop: for a nonnegative accumulator value the
loop leaves the fractional part and emits the floor. -/
theorem drainAcc_eq (a : ℚ) : 0 ≤ a → drainAcc a = (Int.fract a, (⌊a⌋).toNat) := by
  induction a using drainAcc.induct with
  | case1 a h1 ih =>
      intro _
      have ha1 : (0:ℚ) ≤ a - 1 := by linarith
      rw [drainAcc, dif_pos h1, ih ha1]
      have hfr : Int.fract (a - 1) = Int.fract a := by
        exact_mod_cast Int.fract_sub_int a 1
      have hfl : ⌊a - 1⌋ = ⌊a⌋ - 1 := by
        exact_mod_cast Int.floor_sub_int a 1
      have hfl1 : (1:ℤ) ≤ ⌊a⌋ := Int.le_floor.mpr (by exact_mod_cast h1)
      rw [Prod.mk.injEq]
      exact ⟨hfr, by rw [hfl]; omega⟩
  | case2 a h1 =>
      intro h0
      have hlt : a < 1 := not_le.mp h1
      rw [drainAcc, dif_neg h1]
      have hf : Int.fract a = a := Int.fract_eq_self.mpr ⟨h0, hlt⟩
      have hfl : ⌊a⌋ = 0 := Int.floor_eq_zero_iff.mpr ⟨h0, hlt⟩
      rw [hf, hfl]
      rfl

/-- Loop invariant for the callback: starting from an accumulator in
`[0, 1)`, after `n` frames the emitted count is `⌊acc + n·step⌋` and the
accumulator holds the fractional part. -/
theorem processFrames_spec (channels : ℕ) (step : ℚ) (hstep : 0 ≤ step)
    (frames : List (List ℚ)) :
    ∀ acc : ℚ, 0 ≤ acc → acc < 1 →
      ((processFrames channels step frames acc).1.length : ℤ)
          = ⌊acc + frames.length * step⌋ ∧
        (processFrames channels step frames acc).2
          = Int.fract (acc + frames.length * step) := by
  induction frames with
  | nil =>
      intro acc h0 h1
      constructor
      · simp [processFrames, (Int.floor_eq_zero_iff.mpr ⟨h0, h1⟩ : ⌊acc⌋ = 0)]
      · simp [processFrames, Int.fract_eq_self.mpr ⟨h0, h1⟩]
  | cons f rest ih =>
      intro acc h0 h1
      have hx0 : (0:ℚ) ≤ acc + step := by linarith
      have hd := drainAcc_eq (acc + step) hx0
      have hacc0 : (0:ℚ) ≤ Int.fract (acc + step) := Int.fract_nonneg _
      have hacc1 : Int.fract (acc + step) < 1 := Int.fract_lt_one _
      have hih := ih (Int.fract (acc + step)) hacc0 hacc1
      have hfloorx : (0:ℤ) ≤ ⌊acc + step⌋ := Int.floor_nonneg.mpr hx0
      have hsub : ⌊Int.fract (acc + step) + (rest.length : ℚ) * step⌋
          = ⌊(acc + step) + (rest.length : ℚ) * step⌋ - ⌊acc + step⌋ := by
        rw [Int.fract]
        rw [show acc + step - ↑⌊acc + step⌋ + (rest.length : ℚ) * step
            = ((acc + step) + (rest.length : ℚ) * step) - (⌊acc + step⌋ : ℚ) from by ring]
        exact Int.floor_sub_int _ _
      have hfr : Int.fract (Int.fract (acc + step) + (rest.length : ℚ) * step)
          = Int.fract ((acc + step) + (rest.length : ℚ) * step) := by
        have harg : Int.fract (acc + step) + (rest.length : ℚ) * step
            = ((acc + step) + (rest.length : ℚ) * step) - (⌊acc + step⌋ : ℚ) := by
          rw [Int.fract]
          ring
        rw [harg]
        exact Int.fract_sub_int _ _
      have hargeq : acc + ((f :: rest).length : ℚ) * step
          = (acc + step) + (rest.length : ℚ) * step := by
        simp only [List.length_cons]
        push_cast
        ring
      constructor
      · show ((List.replicate (drainAcc (acc + step)).2 (f.sum / (channels:ℚ))
            ++ (processFrames channels step rest (drainAcc (acc+step)).1).1).length : ℤ) = _
        rw [hd]
        simp only [List.length_append, List.length_replicate]
        rw [hargeq]
        have hlen := hih.1
        have hnn : (0:ℤ) ≤ ⌊Int.fract (acc + step) + (rest.length : ℚ) * step⌋ :=
          Int.floor_nonneg.mpr (by positivity)
        push_cast
        omega
      · show (processFrames channels step rest (drainAcc (acc+step)).1).2 = _
        rw [hd]
        rw [hargeq]
        rw [hih.2, hfr]

/-- C6: for any positive `ratio = source_rate / target_rate` and any
sequence of `N` captured frames, the fractional-accumulator resampler
(accumulator advanced by `1/ratio` per mono-averaged frame, one sample
emitted per unit drained) emits `⌊N/ratio⌋` or `⌈N/ratio⌉` output samples
— in fact exactly the floor — and never drifts beyond one sample from
`N/ratio`, for runs of any length. -/
theorem c6_resampler_count (ratio : ℚ) (hr : 0 < ratio) (channels : ℕ)
    (frames : List (List ℚ)) :
    (((processFrames channels (1/ratio) frames 0).1.length : ℤ)
        = ⌊(frames.length : ℚ) / ratio⌋ ∨
      ((processFrames channels (1/ratio) frames 0).1.length : ℤ)
        = ⌈(frames.length : ℚ) / ratio⌉) ∧
    |((processFrames channels (1/ratio) frames 0).1.length : ℚ)
        - (frames.length : ℚ) / ratio| ≤ 1 := by
  have hstep : (0:ℚ) ≤ 1/ratio := by positivity
  have h := (processFrames_spec channels (1/ratio) hstep frames 0 le_rfl one_pos).1
  have harg : (0:ℚ) + (frames.length : ℚ) * (1/ratio) = (frames.length : ℚ) / ratio := by
    ring
  rw [harg] at h
  constructor
  · exact Or.inl h
  · have h1 : (⌊(frames.length : ℚ) / ratio⌋ : ℚ) ≤ (frames.length : ℚ) / ratio :=
      Int.floor_le _
    have h2 : (frames.length : ℚ) / ratio - 1 < (⌊(frames.length : ℚ) / ratio⌋ : ℚ) :=
      Int.sub_one_lt_floor _
    have hcast : ((processFrames channels (1/ratio) frames 0).1.length : ℚ)
        = ((⌊(frames.length : ℚ) / ratio⌋ : ℤ) : ℚ) := by
      exact_mod_cast congrArg (fun z : ℤ => (z : ℚ)) h
    rw [hcast]
    rw [abs_le]
    constructor <;> linarith

/-- C6, witness: the regression scenario scaled down — 10 mono frames at
ratio 2.7. -/
theorem c6_resampler_count_witness :
    (0:ℚ) < 27/10 ∧
    ((((processFrames 1 (1/(27/10)) (List.replicate 10 [(0:ℚ)]) 0).1.length : ℤ)
        = ⌊((List.replicate 10 [(0:ℚ)]).length : ℚ) / (27/10)⌋ ∨
      ((processFrames 1 (1/(27/10)) (List.replicate 10 [(0:ℚ)]) 0).1.length : ℤ)
        = ⌈((List.replicate 10 [(0:ℚ)]).length : ℚ) / (27/10)⌉) ∧
    |((processFrames 1 (1/(27/10)) (List.replicate 10 [(0:ℚ)]) 0).1.length : ℚ)
        - ((List.replicate 10 [(0:ℚ)]).length : ℚ) / (27/10)| ≤ 1) :=
  ⟨by norm_num, c6_resampler_count (27/10) (by norm_num) 1 (List.replicate 10 [(0:ℚ)])⟩

/-- C10, witness: a recorder mid-capture (non-empty buffer, live channel,
one worker) is returned unchanged. -/
theorem c10_start_idempotent_witness :
    AudioRecorder.start
        { buffer := [1/2], sample_rate := 16000, channels := 1,
          recState := .Recording, hasCommandTx := true, workerGen := 1 }
      = ({ buffer := [1/2], sample_rate := 16000, channels := 1,
           recState := .Recording, hasCommandTx := true, workerGen := 1 },
          Except.ok ()) :=
  c10_start_idempotent_while_recording _ rfl

/-! ## C2 — reconnect decision at a Final event -/

/-- C2, counterexample: the terminal-stop flag read at the moment the
Final is observed is `false`, a fresh session is available to open
(`Except.ok (1, …)` is scripted next), yet the task opens nothing
(`openedRates = []`, `published = []`) and exits with state `Idle`: the
source re-reads `should_stop` after the `break` (line 487) and that second
read returns `true` here. The first read is therefore not the sole
determinant of what happens next, and the state does not remain
`Recording`. -/
theorem c2_single_read_counterexample :
    runSessionTask 16000 .Recording true
        ⟨[⟨.Final "hi", true, false, true⟩], false⟩
        [Except.ok (1, ⟨[], true⟩)]
      = ⟨[.Final "hi"], [], [], .Idle, false⟩ := by
  simp [runSessionTask, runTask]

/-- C2, amended: on a forwarded `Final` the task reads the terminal-stop
flag and, if that read is clear, reads it once more before reconnecting;
it sets state to `Idle` and exits without opening a session if either read
sees the flag set; only when both reads are clear and the open succeeds
does it open a brand-new session for the same captured sample rate,
publish the new control handle, and resume consuming the new session's
events, leaving the pipeline state untouched (still `Recording`). -/
theorem c2_reconnect_decision (rate : ℕ) (t : String) (f2 : Bool)
    (rest : List EvObs) (cf : Bool)
    (next : List (Except AsrError (ℕ × SessionScript))) :
    (runTask rate .Recording true (⟨.Final t, true, true, f2⟩ :: rest) cf next
        = ⟨[.Final t], [], [], .Idle, false⟩) ∧
    (runTask rate .Recording true (⟨.Final t, true, false, true⟩ :: rest) cf next
        = ⟨[.Final t], [], [], .Idle, false⟩) ∧
    (∀ (h : ℕ) (s : SessionScript)
        (next' : List (Except AsrError (ℕ × SessionScript))),
      runTask rate .Recording true (⟨.Final t, true, false, false⟩ :: rest) cf
          (Except.ok (h, s) :: next')
        = TaskOut.consForward (.Final t)
            (TaskOut.consOpen rate h
              (runTask rate .Recording true s.events s.closeFlag next'))) := by
  refine ⟨by simp [runTask], by simp [runTask], ?_⟩
  intro h s next'
  simp [runTask]

/-! ## C8 — streaming errors never reconnect -/

/-- C8: whatever the terminal-stop flag shows and whatever reconnect
material is available, a forwarded `Error` event makes the
session-management task forward the error, store `Idle`, clear
`streaming_mode` and exit without opening any new session. -/
theorem c8_error_event_unconditional_exit (rate : ℕ) (st : PipelineState)
    (mode : Bool) (m : String) (fl f2 : Bool) (rest : List EvObs) (cf : Bool)
    (next : List (Except AsrError (ℕ × SessionScript))) :
    runTask rate st mode (⟨.Error m, true, fl, f2⟩ :: rest) cf next
      = ⟨[.Error m], [], [], .Idle, false⟩ := by
  simp [runTask]

/-! ## Shared concrete environments and evaluation lemmas -/

/-- Peak amplitude of the shared sample buffer (stated in the simp-normal
numeral form). -/
theorem maxAmplitude_happy : maxAmplitude [(2:ℚ)⁻¹, 2⁻¹] = 2⁻¹ := by
  have habs : |(2:ℚ)⁻¹| = 2⁻¹ := abs_of_nonneg (by norm_num)
  simp [maxAmplitude, habs]

/-! ## C1 — non-refinement failures and the return to Idle -/

/-- C1: a failing input for the claim. With a loud non-empty recording and
an unknown ASR provider identifier, `create_asr_service` fails and the `?`
operator propagates the configuration error without any state store: the
call returns the error with the pipeline still in `Processing`, not
`Idle`. (The `sample_rate`/`channels` lock failures and a WAV-encoding
failure take the same `?` paths.) -/
theorem c1_unknown_provider_leaves_processing :
    stop_and_process
        { happyEnv with asr := ⟨"Bogus", false, false, false, false⟩ } .Recording
      = ⟨Except.error (PipelineError.Asr
            (AsrError.Config ("unknown ASR provider: " ++ "Bogus"))),
          .Processing, false⟩ := by
  simp [stop_and_process, cancelObserved, happyEnv, create_asr_service]
  rw [if_neg (by rw [maxAmplitude_happy]; norm_num [silenceThreshold]),
    if_neg (by rw [maxAmplitude_happy]; norm_num [quietThreshold])]

/-! ## C4 — stop_and_process when not Recording -/

/-- C4, counterexample: with the cancellation flag set at entry (exactly
the configuration `cancel_streaming` leaves behind: flag set, state
`Idle`), `stop_and_process` returns the `Cancelled` error, not `Ok("")` —
the no-op behaviour is not independent of the other flag values. -/
theorem c4_cancelled_flag_counterexample :
    stop_and_process { happyEnv with cancelArrival := some 0 } .Idle
      = ⟨Except.error PipelineError.Cancelled, .Idle, false⟩ := by
  simp [stop_and_process, cancelObserved, happyEnv]

/-- C4, amended: `stop_and_process` is an idempotent no-op returning empty
text whenever the state is not `Recording` and the cancellation flag is
clear at entry; a set flag instead produces the `Cancelled` error (with
`Idle` stored and the flag cleared) before the state is even examined. -/
theorem c4_noop_when_not_recording (env : ProcEnv) (st0 : PipelineState)
    (h1 : st0 ≠ .Recording) (h2 : env.cancelArrival ≠ some 0) :
    stop_and_process env st0 = ⟨Except.ok "", st0, false⟩ := by
  have hobs : cancelObserved env.cancelArrival 0 = false := by
    cases henv : env.cancelArrival with
    | none => rfl
    | some k =>
        cases k with
        | zero => exact absurd henv h2
        | succ n => simp [cancelObserved]
  unfold stop_and_process
  rw [hobs]
  simp [h1]

/-- C4, witness: the amended theorem at the successful environment in
state `Idle`. -/
theorem c4_noop_witness :
    stop_and_process happyEnv .Idle = ⟨Except.ok "", .Idle, false⟩ :=
  c4_noop_when_not_recording happyEnv .Idle (by simp) (by simp [happyEnv])

/-! ## C5 — the cancellation flag once the pipeline is back at Idle -/

/-- C5, counterexample: `cancel_streaming` on a live streaming session
(recorder lock healthy) returns `Ok` with state stored `Idle` and the
cancellation flag deliberately SET (`self.cancelled.store(true)` directly
before `state.store(Idle)` in the source): the pipeline rests in `Idle`
with the flag still true, so the flag is not always false once the state
is `Idle`. -/
theorem c5_cancel_streaming_leaves_flag_set :
    cancel_streaming true ⟨.Recording, false, true, false, true, true⟩
      = (Except.ok (), ⟨.Idle, true, false, true, false, false⟩) := by
  rfl

/-- C5, amended: cancel-while-Recording and every cancellation checkpoint
of `stop_and_process` do clear the flag exactly when they store `Idle`;
`cancel_streaming` is the exception — it transitions to `Idle` with the
flag left set (marking the operation cancelled for any in-flight
processing). -/
theorem c5_flag_clearing_discipline :
    (∀ vp : VP, vp.state = .Recording →
        cancel true vp
          = (Except.ok (), { vp with state := .Idle, cancelled := false })) ∧
    (∀ (env : ProcEnv) (st0 : PipelineState),
        (stop_and_process env st0).result = Except.error PipelineError.Cancelled →
        stop_and_process env st0
          = ⟨Except.error PipelineError.Cancelled, .Idle, false⟩) ∧
    (∀ vp : VP, vp.streaming_mode = true →
        (cancel_streaming true vp).2.state = .Idle ∧
        (cancel_streaming true vp).2.cancelled = true) := by
  refine ⟨?_, ?_, ?_⟩
  · intro vp h
    simp [cancel, h]
  · intro env st0 h
    by_cases h0 : cancelObserved env.cancelArrival 0 = true
    · simp [stop_and_process, h0]
    · by_cases hst : st0 = PipelineState.Recording
      · by_cases hsl : env.stopLockOk = false
        · exfalso
          simp [stop_and_process, h0, hst, hsl] at h
        · by_cases h1 : cancelObserved env.cancelArrival 1 = true
          · simp [stop_and_process, h0, hst, hsl, h1]
          · by_cases hemp : env.samples = []
            · exfalso
              simp [stop_and_process, h0, hst, hsl, h1, hemp] at h
            · by_cases hsr : env.srLockOk = false
              · exfalso
                simp [stop_and_process, h0, hst, hsl, h1, hemp, hsr] at h
              · by_cases hq1 : maxAmplitude env.samples < silenceThreshold
                · exfalso
                  simp [stop_and_process, h0, hst, hsl, h1, hemp, hsr, hq1] at h
                · by_cases hq2 : maxAmplitude env.samples < quietThreshold
                  · exfalso
                    simp [stop_and_process, h0, hst, hsl, h1, hemp, hsr,
                      hq1, hq2] at h
                  · by_cases hoc : env.asr.provider = "OpenAIWhisper"
                        ∧ env.chLockOk = false
                    · exfalso
                      simp [stop_and_process, h0, hst, hsl, h1, hemp, hsr,
                        hq1, hq2, hoc] at h
                    · by_cases how : env.asr.provider = "OpenAIWhisper"
                          ∧ env.wavWriterOk = false
                      · exfalso
                        by_cases hch : env.chLockOk = false <;>
                          simp [stop_and_process, h0, hst, hsl, h1, hemp, hsr,
                            hq1, hq2, hoc, how, hch] at h
                      · by_cases h2 : cancelObserved env.cancelArrival 2 = true
                        · simp [stop_and_process, h0, hst, hsl, h1, hemp, hsr,
                            hq1, hq2, hoc, how, h2]
                        · cases hca : create_asr_service env.asr with
                          | error e =>
                              exfalso
                              simp [stop_and_process, h0, hst, hsl, h1, hemp,
                                hsr, hq1, hq2, hoc, how, h2, hca] at h
                          | ok u =>
                              cases u
                              cases hrec : env.recognize with
                              | error e =>
                                  exfalso
                                  simp [stop_and_process, h0, hst, hsl, h1,
                                    hemp, hsr, hq1, hq2, hoc, how, h2, hca,
                                    hrec] at h
                              | ok t =>
                                  by_cases h3 : cancelObserved env.cancelArrival 3 = true
                                  · simp [stop_and_process, h0, hst, hsl, h1,
                                      hemp, hsr, hq1, hq2, hoc, how, h2, hca,
                                      hrec, h3]
                                  · exfalso
                                    simp [stop_and_process, h0, hst, hsl, h1,
                                      hemp, hsr, hq1, hq2, hoc, how, h2, hca,
                                      hrec, h3] at h
      · exfalso
        simp [stop_and_process, h0, hst] at h
  · intro vp h
    simp [cancel_streaming, h]

/-- C5, witness: the amended theorem applied at a concrete recording
pipeline and at a concrete cancelled `stop_and_process` call. -/
theorem c5_flag_clearing_witness :
    cancel true ⟨.Recording, false, false, false, false, false⟩
      = (Except.ok (), ⟨.Idle, false, false, false, false, false⟩) ∧
    stop_and_process { happyEnv with cancelArrival := some 0 } .Recording
      = ⟨Except.error PipelineError.Cancelled, .Idle, false⟩ := by
  constructor
  · exact c5_flag_clearing_discipline.1 _ rfl
  · exact c5_flag_clearing_discipline.2.1 _ _
      (by simp [stop_and_process, cancelObserved, happyEnv])

/-! ## C7 — cancel while Processing -/

/-- C7, counterexample: the flag is set after the last checkpoint (during
the refinement step, while the state is `Processing`), every network step
succeeds, and `stop_and_process` returns SUCCESS with the flag still set
at return — refuting "returns a Cancelled error, never a success". -/
theorem c7_cancel_during_refinement_success :
    stop_and_process { happyEnv with cancelArrival := some 4 } .Recording
      = ⟨Except.ok "你好", .Idle, true⟩ := by
  simp [stop_and_process, cancelObserved, happyEnv, create_asr_service]
  rw [if_neg (by rw [maxAmplitude_happy]; norm_num [silenceThreshold]),
    if_neg (by rw [maxAmplitude_happy]; norm_num [quietThreshold])]

/-- C7, amended: `cancel` invoked in `Processing` only sets the
cancellation flag, leaving the state and everything else untouched; and
whenever the flag becomes set before a checkpoint read that the in-flight
`stop_and_process` call actually reaches, the call returns the `Cancelled`
error with state stored `Idle` and the flag cleared. (If the flag is set
only after the final checkpoint, the call can still return success — see
the counterexample.) -/
theorem c7_cancel_processing_checkpoints :
    (∀ (vp : VP) (lockOk : Bool), vp.state = .Processing →
        cancel lockOk vp = (Except.ok (), { vp with cancelled := true })) ∧
    (∀ (env : ProcEnv) (st0 : PipelineState) (k : ℕ),
        env.cancelArrival = some k → k ≤ 3 → reachesRead env st0 k →
        stop_and_process env st0
          = ⟨Except.error PipelineError.Cancelled, .Idle, false⟩) := by
  constructor
  · intro vp lockOk h
    simp [cancel, h]
  · intro env st0 k hk hk3 hr
    interval_cases k
    · simp [stop_and_process, cancelObserved, hk]
    · obtain ⟨hst, hsl⟩ := hr
      simp [stop_and_process, cancelObserved, hk, hst, hsl]
    · obtain ⟨hst, hsl, hemp, hsr, hq1, hq2, hoaw⟩ := hr
      by_cases hp : env.asr.provider = "OpenAIWhisper"
      · obtain ⟨hch, hwav⟩ := hoaw hp
        simp [stop_and_process, cancelObserved, hk, hst, hsl, hemp, hsr,
          hq1, hq2, hp, hch, hwav]
      · simp [stop_and_process, cancelObserved, hk, hst, hsl, hemp, hsr,
          hq1, hq2, hp]
    · obtain ⟨hst, hsl, hemp, hsr, hq1, hq2, hoaw, hca, t, hrec⟩ := hr
      by_cases hp : env.asr.provider = "OpenAIWhisper"
      · obtain ⟨hch, hwav⟩ := hoaw hp
        simp [stop_and_process, cancelObserved, hk, hst, hsl, hemp, hsr,
          hq1, hq2, hp, hch, hwav, hca, hrec]
      · simp [stop_and_process, cancelObserved, hk, hst, hsl, hemp, hsr,
          hq1, hq2, hp, hca, hrec]

/-- C7, witness: the amended theorem at a concrete environment whose
cancellation arrives before checkpoint read 2 (after encoding), with the
pipeline mid-processing. -/
theorem c7_checkpoint_witness :
    stop_and_process { happyEnv with cancelArrival := some 2 } .Recording
      = ⟨Except.error PipelineError.Cancelled, .Idle, false⟩ :=
  c7_cancel_processing_checkpoints.2
    { happyEnv with cancelArrival := some 2 } .Recording 2 rfl (by norm_num)
    (by
      refine ⟨rfl, rfl, rfl, rfl, ?_, ?_, ?_⟩
      · show ¬ maxAmplitude [(1:ℚ)/2, 1/2] < silenceThreshold
        rw [show [(1:ℚ)/2, 1/2] = [(2:ℚ)⁻¹, 2⁻¹] from by norm_num, maxAmplitude_happy]
        norm_num [silenceThreshold]
      · show ¬ maxAmplitude [(1:ℚ)/2, 1/2] < quietThreshold
        rw [show [(1:ℚ)/2, 1/2] = [(2:ℚ)⁻¹, 2⁻¹] from by norm_num, maxAmplitude_happy]
        norm_num [quietThreshold]
      · intro hp
        exact absurd hp (by simp [happyEnv]))

/-! ## C9 — Final events with an omitted transcript field -/

/-- C9, counterexample: a terminal (`…transcription.completed`) message
that omits the `transcript` field but carries a `text` field produces a
`Final` carrying THAT text, not the accumulated confirmed fragment:
`transcript.or(text).unwrap_or(accumulated_text)` consults `text` before
the accumulator, so omitting `transcript` alone does not back-fill from
the Partial events. -/
theorem c9_final_fallback_counterexample :
    pumpHandleResponse "accumulated"
        ⟨"conversation.item.input_audio_transcription.completed",
          none, some "inline", none, none⟩
      = ⟨[StreamingAsrEvent.Final "inline"], "", false⟩ ∧
    "inline" ≠ "accumulated" := by
  constructor
  · rfl
  · decide

/-- C9, amended: when the terminal message omits BOTH the `transcript` and
the `text` field, the emitted `Final` carries the most recently
accumulated confirmed-text fragment from this session's Partial events (a
present `transcript`, or else a present `text`, takes precedence); the
accumulator is cleared by every terminal message, so the next reconnect
cycle starts empty; and a `…transcription.text` message updates the
accumulator to its confirmed text exactly when that text is non-empty. -/
theorem c9_final_fallback_and_reset (acc : String) :
    (∀ st : Option String,
      pumpHandleResponse acc
          ⟨"conversation.item.input_audio_transcription.completed",
            none, none, st, none⟩
        = ⟨[StreamingAsrEvent.Final acc], "", false⟩) ∧
    (∀ (tr : String) (txt st : Option String),
      pumpHandleResponse acc
          ⟨"conversation.item.input_audio_transcription.completed",
            some tr, txt, st, none⟩
        = ⟨[StreamingAsrEvent.Final tr], "", false⟩) ∧
    (∀ tr txt st : Option String,
      (pumpHandleResponse acc
          ⟨"conversation.item.input_audio_transcription.completed",
            tr, txt, st, none⟩).accumulated_text = "") ∧
    (∀ (t sh : String) (tr : Option String),
      pumpHandleResponse acc
          ⟨"conversation.item.input_audio_transcription.text",
            tr, some t, some sh, none⟩
        = ⟨[StreamingAsrEvent.Partial t sh],
            if t ≠ "" then t else acc, false⟩) := by
  refine ⟨?_, ?_, ?_, ?_⟩ <;> intros <;> simp [pumpHandleResponse]

end Vhisper
